import Mathlib

/-!
Shallow embedding of the nyancoin crafting-economy calculator
(src/script.js): recursive cost and stamina resolution over the recipe
dependency graph, the stepped delivery requirement schedule, the
work-life-balance stamina-value converter, and the delivery-efficiency
optimizer.

Modelling conventions.  JavaScript numbers are modelled as exact
rationals.  JavaScript Math.round is floor (x + 1/2) (round half toward
positive infinity, which is what Math.round does).  Number.toFixed
display formatting on the final result records is treated as a
presentation-boundary concern and is modelled only where a claim
depends on it (the stamina-value converter returns its value through
toFixed(2), modelled by toFixed2).  The recursive resolvers take an
explicit fuel argument; the top-level entry points supply fuel
(number of recipe entries plus one) that dominates the depth of any
resolution path, since a path only ever recurses through pairwise
distinct recipe names.  A fuel-exhausted run is represented by none.
-/

/-- Error kinds returned as values by the resolvers and the optimizer,
mirroring the error objects of src/script.js. -/
inductive CostError where
  | material_price_missing (materialName : String)
  | item_not_found (itemName : String)
  | circular_dependency (itemName : String)
  | generic_cost_error
deriving DecidableEq

deriving instance DecidableEq for Except

/-- A recipe entry: its crafting stamina, category tag, and ingredient
list (ingredient name paired with the required raw count). -/
structure Recipe where
  stamina : ℚ
  category : String
  ingredients : List (String × ℚ)
deriving DecidableEq

/-- The settings object of the dataset.  stamina_cost is optional
because the source reads it as (appData.settings.stamina_cost || 0);
conservation_level is optional because calcEfficiency tests it against
undefined. -/
structure Settings where
  stamina_cost : Option ℚ
  efficiency_limit : ℚ
  conservation_level : Option ℚ
  ignoreIntermediateStamina : Bool
deriving DecidableEq

/-- The dataset: materials (name to unit price), recipes, settings.
Name-indexed JavaScript objects are modelled as association lists with
first-match lookup. -/
structure AppData where
  materials : List (String × ℚ)
  recipes : List (String × Recipe)
  settings : Settings
deriving DecidableEq

/-- JavaScript Math.round: round half toward positive infinity, i.e.
the floor of q + 1/2. -/
def jsRound (q : ℚ) : ℤ := ⌊q + 1 / 2⌋

/-- JavaScript Number.toFixed(2) on a nonnegative number, read back as
a rational: round to two decimal places, ties away from zero for
positive arguments. -/
def toFixed2 (q : ℚ) : ℚ := (⌊q * 100 + 1 / 2⌋ : ℚ) / 100

/-- findRecipe from the source: look the name up among recipes. -/
def findRecipe (d : AppData) (itemName : String) : Option Recipe :=
  d.recipes.lookup itemName

/-- The ingredient-count reduction factor: 1 - conservationLevel * 0.05
unless the recipe's category is one of the two conservation-exempt
categories (processed goods, weaving), in which case 1. -/
def reductionFactor (recipe : Recipe) (conservationLevel : ℚ) : ℚ :=
  if recipe.category ≠ "가공품" ∧ recipe.category ≠ "방직" then
    1 - conservationLevel * (5 / 100)
  else 1

/-- The ingredient loop of the two cost resolvers: resolve each
ingredient in list order, short-circuiting on the first error (matching
the immediate `return ingCost` in the source), and accumulate
resolvedCost * round(count * factor).  none means a fuel-exhausted
recursive call. -/
def costIngredients (resolve : String → Option (Except CostError ℚ))
    (factor : ℚ) : List (String × ℚ) → Option (Except CostError ℚ)
  | [] => some (Except.ok 0)
  | (ingName, count) :: rest =>
    match resolve ingName with
    | none => none
    | some (Except.error e) => some (Except.error e)
    | some (Except.ok v) =>
      match costIngredients resolve factor rest with
      | none => none
      | some (Except.error e) => some (Except.error e)
      | some (Except.ok s) => some (Except.ok (v * (jsRound (count * factor) : ℚ) + s))

/-- The ingredient loop of the stamina resolver (which has no error
outcomes): accumulate resolvedStamina * round(count * factor). -/
def staminaIngredients (resolve : String → Option ℚ)
    (factor : ℚ) : List (String × ℚ) → Option ℚ
  | [] => some 0
  | (ingName, count) :: rest =>
    match resolve ingName with
    | none => none
    | some v =>
      match staminaIngredients resolve factor rest with
      | none => none
      | some s => some (v * (jsRound (count * factor) : ℚ) + s)

/-- getStamina from the source.  Note the source order: the visited
check comes first (a revisited name returns 0, not an error), then a
name with no recipe returns 0; the per-branch tracking set is copied
into each recursive call; if ignoreIntermediateStamina is set and the
category is conservation-exempt, the item's own stamina is subtracted
back out of the total. -/
def staminaGo (d : AppData) (conservationLevel : ℚ) :
    Nat → String → List String → Option ℚ
  | 0, _, _ => none
  | fuel' + 1, itemName, visited =>
    if itemName ∈ visited then some 0
    else
      match findRecipe d itemName with
      | none => some 0
      | some recipe =>
        let currentItemStamina := recipe.stamina
        match staminaIngredients
            (fun ingName => staminaGo d conservationLevel fuel' ingName (itemName :: visited))
            (reductionFactor recipe conservationLevel) recipe.ingredients with
        | none => none
        | some ingStamina =>
          let totalStamina := currentItemStamina + ingStamina
          if d.settings.ignoreIntermediateStamina ∧
              (recipe.category = "가공품" ∨ recipe.category = "방직") then
            some (totalStamina - currentItemStamina)
          else some totalStamina

/-- Top-level getStamina: fresh tracking set, fuel dominating any
resolution path. -/
def getStamina (d : AppData) (itemName : String) (conservationLevel : ℚ) : Option ℚ :=
  staminaGo d conservationLevel (d.recipes.length + 1) itemName []

/-- getTotalCostIncludingStamina from the source: material branch
first (price if positive, material_price_missing otherwise), then
recipe branch with item_not_found, then the cycle check against the
current path's tracking set, then the ingredient loop, and finally the
item's own effective stamina (resolved with a fresh tracking set)
converted at settings.stamina_cost. -/
def totalCostGo (d : AppData) (conservationLevel : ℚ) :
    Nat → String → List String → Option (Except CostError ℚ)
  | 0, _, _ => none
  | fuel' + 1, itemName, visited =>
    match d.materials.lookup itemName with
    | some price =>
      if price ≤ 0 then some (Except.error (CostError.material_price_missing itemName))
      else some (Except.ok price)
    | none =>
      match findRecipe d itemName with
      | none => some (Except.error (CostError.item_not_found itemName))
      | some recipe =>
        if itemName ∈ visited then
          some (Except.error (CostError.circular_dependency itemName))
        else
          match costIngredients
              (fun ingName => totalCostGo d conservationLevel fuel' ingName (itemName :: visited))
              (reductionFactor recipe conservationLevel) recipe.ingredients with
          | none => none
          | some (Except.error e) => some (Except.error e)
          | some (Except.ok cost) =>
            match staminaGo d conservationLevel (d.recipes.length + 1) itemName [] with
            | none => none
            | some s => some (Except.ok (cost + s * d.settings.stamina_cost.getD 0))

/-- Top-level getTotalCostIncludingStamina. -/
def getTotalCostIncludingStamina (d : AppData) (itemName : String)
    (conservationLevel : ℚ) : Option (Except CostError ℚ) :=
  totalCostGo d conservationLevel (d.recipes.length + 1) itemName []

/-- getMaterialCost from the source: identical control flow to the
total-cost resolver but without the stamina term. -/
def materialCostGo (d : AppData) (conservationLevel : ℚ) :
    Nat → String → List String → Option (Except CostError ℚ)
  | 0, _, _ => none
  | fuel' + 1, itemName, visited =>
    match d.materials.lookup itemName with
    | some price =>
      if price ≤ 0 then some (Except.error (CostError.material_price_missing itemName))
      else some (Except.ok price)
    | none =>
      match findRecipe d itemName with
      | none => some (Except.error (CostError.item_not_found itemName))
      | some recipe =>
        if itemName ∈ visited then
          some (Except.error (CostError.circular_dependency itemName))
        else
          costIngredients
            (fun ingName => materialCostGo d conservationLevel fuel' ingName (itemName :: visited))
            (reductionFactor recipe conservationLevel) recipe.ingredients

/-- Top-level getMaterialCost. -/
def getMaterialCost (d : AppData) (itemName : String)
    (conservationLevel : ℚ) : Option (Except CostError ℚ) :=
  materialCostGo d conservationLevel (d.recipes.length + 1) itemName []

/-- The weighted stamina actually monetized by the total-cost resolver:
at each recipe node of the expansion it adds that node's entire
effective subtree stamina (the getStamina value the source adds at that
level), plus round(count * factor) times the same quantity for each
ingredient subtree.  Materials, unknown names and revisited names
contribute 0 (the cost resolver errors out on the latter two before any
stamina is added, so their value is irrelevant there). -/
def deepStaminaGo (d : AppData) (conservationLevel : ℚ) :
    Nat → String → List String → Option ℚ
  | 0, _, _ => none
  | fuel' + 1, itemName, visited =>
    match d.materials.lookup itemName with
    | some _ => some 0
    | none =>
      match findRecipe d itemName with
      | none => some 0
      | some recipe =>
        if itemName ∈ visited then some 0
        else
          match staminaIngredients
              (fun ingName => deepStaminaGo d conservationLevel fuel' ingName (itemName :: visited))
              (reductionFactor recipe conservationLevel) recipe.ingredients with
          | none => none
          | some ingDeep =>
            match staminaGo d conservationLevel (d.recipes.length + 1) itemName [] with
            | none => none
            | some s => some (s + ingDeep)

/-- Top-level weighted stamina, entered like the cost resolvers. -/
def deepStamina (d : AppData) (itemName : String) (conservationLevel : ℚ) : Option ℚ :=
  deepStaminaGo d conservationLevel (d.recipes.length + 1) itemName []

/-- calculateStaminaCost from the source: the work-life-balance level
to stamina monetary value converter. -/
def calculateStaminaCost (wlbLevel : ℚ) : ℚ :=
  if wlbLevel ≤ 1 then 99999
  else
    let totalBaseMaterialCost : ℚ := 1000
    let totalCraftActions : ℚ := 13
    let netStaminaGainPerCraft := wlbLevel - 1
    let totalNetStaminaGain := totalCraftActions * netStaminaGainPerCraft
    if totalNetStaminaGain ≤ 0 then 99999
    else toFixed2 (totalBaseMaterialCost / totalNetStaminaGain)

/-- getReqCount from the source: required units for the Nth delivery. -/
def getReqCount (deliveryNumber : Nat) : Nat :=
  if deliveryNumber ≤ 1 then 1
  else if deliveryNumber = 2 then 2
  else if 3 ≤ deliveryNumber ∧ deliveryNumber ≤ 10 then 3
  else if 11 ≤ deliveryNumber ∧ deliveryNumber ≤ 20 then 5
  else 10

/-- Cumulative sum of getReqCount over deliveries 1..n (the
`for i = 1..m` accumulation loops of calcEfficiency). -/
def sumReqCounts : Nat → Nat
  | 0 => 0
  | n + 1 => sumReqCounts n + getReqCount (n + 1)

/-- The best-achievable search loop of calcEfficiency: starting from
maxDeliveries (with totalItemsForAvg units already accumulated), keep
incrementing while the cumulative average efficiency at the next
delivery stays at or above the efficiency limit and maxDeliveries is
below 50.  The loop body runs at most 50 times; fuel 51 at the entry
point makes the fuel bound unreachable. -/
def searchLoop (unitCost reward efficiencyLimit : ℚ) :
    Nat → Nat → Nat → Nat
  | 0, maxDeliveries, _ => maxDeliveries
  | fuel' + 1, maxDeliveries, totalItemsForAvg =>
    if maxDeliveries < 50 then
      let currentDeliveryNum := maxDeliveries + 1
      let totalItemsNew := totalItemsForAvg + getReqCount currentDeliveryNum
      let totalCostForAvg := unitCost * (totalItemsNew : ℚ)
      let totalProfitForAvg := reward * (currentDeliveryNum : ℚ)
      let averageEfficiency :=
        if totalCostForAvg > 0 then totalProfitForAvg / totalCostForAvg else 0
      if efficiencyLimit ≤ averageEfficiency then
        searchLoop unitCost reward efficiencyLimit fuel' (maxDeliveries + 1) totalItemsNew
      else maxDeliveries
    else maxDeliveries

/-- The cumulative average efficiency of k deliveries, exactly as the
search loop computes it (0 when the cumulative cost is not positive). -/
def cumulativeEfficiency (unitCost reward : ℚ) (k : Nat) : ℚ :=
  if unitCost * (sumReqCounts k : ℚ) > 0 then
    reward * (k : ℚ) / (unitCost * (sumReqCounts k : ℚ))
  else 0

/-- The canonical milestone delivery counts, in the source's order. -/
def milestones : List Nat := [25, 20, 10, 2, 1]

/-- milestones.find: the first (hence largest) milestone at or below n. -/
def bestMilestoneFor (n : Nat) : Option Nat :=
  milestones.find? (fun m => decide (m ≤ n))

/-- The fixed-simulation mode selector map of calcEfficiency. -/
def deliveryMap : List (String × Nat) :=
  [("1", 1), ("2", 2), ("3", 10), ("5", 20), ("10", 25)]

/-- The result record of calcEfficiency.  Fields the source only sets
on some branches (round, msg) are Options.  The numeric fields carry
the unrounded values; the source passes several of them through
toFixed(n) purely for display. -/
structure EfficiencyResult where
  mode : String
  recommend : Bool
  round : Option Nat
  msg : Option String
  totalItems : Nat
  totalProfit : ℚ
  averageEfficiency : ℚ
  unitCost : ℚ
  consumedCoin : ℚ
  totalCost : ℚ
  totalStamina : ℚ
deriving DecidableEq

/-- The body of calcEfficiency after its first line: everything is
resolved at the given conservation level.  Resolution errors are
returned verbatim; a unit cost of exactly 0 fails with
generic_cost_error; deliveryMode "default" runs the threshold search
and snaps to a milestone, any other deliveryMode is looked up in the
fixed-simulation map.  A mode outside the map would compute with an
undefined count in JavaScript (NaN propagation); that unreachable-in-UI
branch is modelled as none, as is the impossible milestone-find miss. -/
def calcEfficiencyAt (d : AppData) (conservationLevel : ℚ) (itemName : String)
    (reward : ℚ) (deliveryMode : String) : Option (Except CostError EfficiencyResult) :=
  match getMaterialCost d itemName conservationLevel with
  | none => none
  | some (Except.error e) => some (Except.error e)
  | some (Except.ok consumedCoin) =>
    match getTotalCostIncludingStamina d itemName conservationLevel with
    | none => none
    | some (Except.error e) => some (Except.error e)
    | some (Except.ok unitCost) =>
      match getStamina d itemName conservationLevel with
      | none => none
      | some unitStamina =>
        if unitCost = 0 then some (Except.error CostError.generic_cost_error)
        else if deliveryMode = "default" then
          let maxDeliveries := searchLoop unitCost reward d.settings.efficiency_limit 51 0 0
          if maxDeliveries = 0 then
            let req := getReqCount 1
            some (Except.ok {
              mode := deliveryMode
              recommend := false
              round := none
              msg := some "납품 비추천 (효율 낮음)"
              totalItems := req
              totalProfit := reward * (req : ℚ)
              averageEfficiency := reward / (unitCost * (req : ℚ))
              unitCost := unitCost
              consumedCoin := consumedCoin * (req : ℚ)
              totalCost := unitCost * (req : ℚ)
              totalStamina := unitStamina * (req : ℚ) })
          else
            match bestMilestoneFor maxDeliveries with
            | none => none
            | some bestMilestone =>
              let finalTotalItems := sumReqCounts bestMilestone
              let totalProfit := reward * (bestMilestone : ℚ)
              let totalCost := unitCost * (finalTotalItems : ℚ)
              some (Except.ok {
                mode := "default"
                recommend := true
                round := some bestMilestone
                msg := none
                totalItems := finalTotalItems
                totalProfit := totalProfit
                averageEfficiency := if totalCost > 0 then totalProfit / totalCost else 0
                unitCost := unitCost
                consumedCoin := consumedCoin * (finalTotalItems : ℚ)
                totalCost := totalCost
                totalStamina := unitStamina * (finalTotalItems : ℚ) })
        else
          match deliveryMap.lookup deliveryMode with
          | none => none
          | some maxDeliveries =>
            let currentTotal := sumReqCounts maxDeliveries
            let totalProfit := reward * (maxDeliveries : ℚ)
            let totalCost := unitCost * (currentTotal : ℚ)
            some (Except.ok {
              mode := deliveryMode
              recommend := true
              round := some maxDeliveries
              msg := none
              totalItems := currentTotal
              totalProfit := totalProfit
              averageEfficiency := if totalCost > 0 then totalProfit / totalCost else 0
              unitCost := unitCost
              consumedCoin := consumedCoin * (currentTotal : ℚ)
              totalCost := totalCost
              totalStamina := unitStamina * (currentTotal : ℚ) })

/-- calcEfficiency from the source: its first line picks the
conservation level, defaulting to 10 when settings.conservation_level
is undefined. -/
def calcEfficiency (d : AppData) (itemName : String) (reward : ℚ)
    (deliveryMode : String) : Option (Except CostError EfficiencyResult) :=
  calcEfficiencyAt d (d.settings.conservation_level.getD 10) itemName reward deliveryMode

/-- The ingredient loop of the material-cost resolver with the raw
count used directly, no reduction and no rounding.  Comparator for the
spec's words in claim C5 ("resolution results equal those obtained
without any count reduction"); not part of the source. -/
def costIngredientsRaw (resolve : String → Option (Except CostError ℚ)) :
    List (String × ℚ) → Option (Except CostError ℚ)
  | [] => some (Except.ok 0)
  | (ingName, count) :: rest =>
    match resolve ingName with
    | none => none
    | some (Except.error e) => some (Except.error e)
    | some (Except.ok v) =>
      match costIngredientsRaw resolve rest with
      | none => none
      | some (Except.error e) => some (Except.error e)
      | some (Except.ok s) => some (Except.ok (v * count + s))

/-- Material-cost resolution with raw ingredient counts (no reduction
factor, no rounding): the spec-side comparator for claim C5. -/
def materialCostUnreducedGo (d : AppData) :
    Nat → String → List String → Option (Except CostError ℚ)
  | 0, _, _ => none
  | fuel' + 1, itemName, visited =>
    match d.materials.lookup itemName with
    | some price =>
      if price ≤ 0 then some (Except.error (CostError.material_price_missing itemName))
      else some (Except.ok price)
    | none =>
      match findRecipe d itemName with
      | none => some (Except.error (CostError.item_not_found itemName))
      | some recipe =>
        if itemName ∈ visited then
          some (Except.error (CostError.circular_dependency itemName))
        else
          costIngredientsRaw
            (fun ingName => materialCostUnreducedGo d fuel' ingName (itemName :: visited))
            recipe.ingredients

/-- Top-level unreduced material cost. -/
def materialCostUnreduced (d : AppData) (itemName : String) : Option (Except CostError ℚ) :=
  materialCostUnreducedGo d (d.recipes.length + 1) itemName []

/-- Every ingredient count in the dataset is an integer. -/
def IntegralCounts (d : AppData) : Prop :=
  ∀ r ∈ d.recipes, ∀ p ∈ r.2.ingredients, ∃ k : ℤ, p.2 = (k : ℚ)

/-- The result record produced by a fixed-simulation run of count
deliveries (and, with count a milestone, by a snapped best-achievable
run): spelled out once so the optimizer theorems can name it. -/
def fixedSimResult (mode : String) (count : Nat) (reward cC uC uS : ℚ) : EfficiencyResult :=
  { mode := mode
    recommend := true
    round := some count
    msg := none
    totalItems := sumReqCounts count
    totalProfit := reward * (count : ℚ)
    averageEfficiency :=
      if uC * (sumReqCounts count : ℚ) > 0 then
        reward * (count : ℚ) / (uC * (sumReqCounts count : ℚ))
      else 0
    unitCost := uC
    consumedCoin := cC * (sumReqCounts count : ℚ)
    totalCost := uC * (sumReqCounts count : ℚ)
    totalStamina := uS * (sumReqCounts count : ℚ) }

/-- Shared demo settings: stamina worth 1 coin per point, threshold 0,
conservation 0, intermediate stamina counted. -/
def demoSettings : Settings :=
  { stamina_cost := some 1
    efficiency_limit := 0
    conservation_level := some 0
    ignoreIntermediateStamina := false }

/-- C1 demo: A is crafted from one B, B from one ore; every craft costs
1 stamina, stamina is worth 1 coin. -/
def demoChain : AppData :=
  { materials := [("ore", 1)]
    recipes :=
      [("A", { stamina := 1, category := "기타", ingredients := [("B", 1)] }),
       ("B", { stamina := 1, category := "기타", ingredients := [("ore", 1)] })]
    settings := demoSettings }

/-- C2 demo: a recipe that lists itself as an ingredient. -/
def demoSelfCycle : AppData :=
  { materials := []
    recipes := [("A", { stamina := 7, category := "기타", ingredients := [("A", 2)] })]
    settings := demoSettings }

/-- C3 demo: two recipes that reference each other. -/
def demoMutual : AppData :=
  { materials := []
    recipes :=
      [("A", { stamina := 1, category := "기타", ingredients := [("B", 1)] }),
       ("B", { stamina := 1, category := "기타", ingredients := [("A", 1)] })]
    settings := demoSettings }

/-- C3 demo: a mutual cycle masked by an earlier failing ingredient;
A lists the unknown item X before B, and B lists A. -/
def demoMaskedCycle : AppData :=
  { materials := []
    recipes :=
      [("A", { stamina := 1, category := "기타", ingredients := [("X", 1), ("B", 1)] }),
       ("B", { stamina := 1, category := "기타", ingredients := [("A", 1)] })]
    settings := demoSettings }

/-- C3 demo: diamond-shaped reuse, D reachable from A through both B
and C. -/
def demoDiamond : AppData :=
  { materials := [("D", 1)]
    recipes :=
      [("A", { stamina := 1, category := "기타", ingredients := [("B", 1), ("C", 1)] }),
       ("B", { stamina := 1, category := "기타", ingredients := [("D", 1)] }),
       ("C", { stamina := 1, category := "기타", ingredients := [("D", 1)] })]
    settings := demoSettings }

/-- C5 demo: a recipe with the non-integral ingredient count 3/2. -/
def demoHalfCount : AppData :=
  { materials := [("wood", 1)]
    recipes :=
      [("A", { stamina := 0, category := "기타", ingredients := [("wood", 3 / 2)] })]
    settings := { demoSettings with stamina_cost := some 0 } }

/-- C5 demo: the same dataset with the integral count 2. -/
def demoIntCount : AppData :=
  { materials := [("wood", 1)]
    recipes :=
      [("A", { stamina := 0, category := "기타", ingredients := [("wood", 2)] })]
    settings := { demoSettings with stamina_cost := some 0 } }

/-- C6/C7 demo: one stamina-free recipe over one unit of a unit-price
material, so the unit cost is exactly 1; efficiency threshold 1. -/
def demoUnit : AppData :=
  { materials := [("wood", 1)]
    recipes :=
      [("A", { stamina := 0, category := "기타", ingredients := [("wood", 1)] })]
    settings :=
      { stamina_cost := some 0
        efficiency_limit := 1
        conservation_level := some 0
        ignoreIntermediateStamina := false } }

/-- C10 demo: conservation_level omitted; at level 10 the effective
count of the ingredient halves (round(2 * 0.5) = 1), so results differ
from level 0. -/
def demoNoLevel : AppData :=
  { materials := [("wood", 1)]
    recipes :=
      [("A", { stamina := 0, category := "기타", ingredients := [("wood", 2)] })]
    settings :=
      { stamina_cost := some 0
        efficiency_limit := 0
        conservation_level := none
        ignoreIntermediateStamina := false } }

/-! Theorems.  Helper lemmas come first, then one theorem per claim
(with its witness or counterexample where required). -/

/-- jsRound is Math.round on integers: the identity. -/
theorem jsRound_int (k : ℤ) : jsRound (k : ℚ) = k := by
  rw [jsRound, add_comm, Int.floor_add_int]
  norm_num

/-- Concrete rounding facts used when evaluating the demo datasets. -/
theorem jsRound_one : jsRound 1 = 1 := by norm_num [jsRound, Int.floor_eq_iff]

theorem jsRound_two : jsRound 2 = 2 := by norm_num [jsRound, Int.floor_eq_iff]

theorem jsRound_half3 : jsRound (3 / 2) = 2 := by norm_num [jsRound, Int.floor_eq_iff]

/-- A unit price is positive: used to discharge the missing-price
guard when evaluating the demo datasets. -/
theorem one_price_pos : ¬ ((1 : ℚ) ≤ 0) := by norm_num

/-- Every delivery requires at least one unit. -/
theorem getReqCount_pos (n : Nat) : 1 ≤ getReqCount n := by
  unfold getReqCount
  split_ifs <;> omega

/-- At least one delivery requires at least one cumulative unit. -/
theorem sumReqCounts_pos (n : Nat) (h : 1 ≤ n) : 1 ≤ sumReqCounts n := by
  cases n with
  | zero => omega
  | succ m =>
    have := getReqCount_pos (m + 1)
    simp only [sumReqCounts]
    omega

/-- C8 (confirmed): requiredUnits matches the literal step table
(index 1 gives 1, index 2 gives 2, indices 3..10 give 3, indices
11..20 give 5, indices 21 and beyond give 10) and is non-decreasing
over indices at least 1. -/
theorem getReqCount_table_mono : ∀ n : Nat, 1 ≤ n →
    ((n = 1 → getReqCount n = 1) ∧ (n = 2 → getReqCount n = 2) ∧
     (3 ≤ n ∧ n ≤ 10 → getReqCount n = 3) ∧
     (11 ≤ n ∧ n ≤ 20 → getReqCount n = 5) ∧
     (21 ≤ n → getReqCount n = 10)) ∧
    ∀ m : Nat, 1 ≤ m → m ≤ n → getReqCount m ≤ getReqCount n := by
  have key : ∀ a b : Nat, a ≤ b → getReqCount a ≤ getReqCount b := by
    intro a b hab
    unfold getReqCount
    split_ifs <;> omega
  intro n hn
  refine ⟨⟨?_, ?_, ?_, ?_, ?_⟩, fun m _ hmn => key m n hmn⟩ <;>
    · intro h
      unfold getReqCount
      split_ifs <;> omega

/-- C8 witness: the table and monotonicity at index 21. -/
theorem getReqCount_table_mono_witness :
    getReqCount 21 = 10 ∧ getReqCount 20 ≤ getReqCount 21 :=
  ⟨(getReqCount_table_mono 21 (by decide)).1.2.2.2.2 (by decide),
   (getReqCount_table_mono 21 (by decide)).2 20 (by decide) (by decide)⟩

/-- C9 (confirmed): the stamina-value converter returns the sentinel
99999 for every level at most 1 (equivalently whenever the denominator
13 * (level - 1) is not positive), returns 1000 / (13 * (level - 1))
rounded to two decimal places for every level above 1, and yields
15.38 at level 6.  (The source returns the rounded value through
toFixed(2), i.e. as a display string; the value is modelled.) -/
theorem calculateStaminaCost_contract : ∀ lvl : ℚ,
    (lvl ≤ 1 → calculateStaminaCost lvl = 99999) ∧
    (1 < lvl → calculateStaminaCost lvl = toFixed2 (1000 / (13 * (lvl - 1)))) ∧
    (13 * (lvl - 1) ≤ 0 → calculateStaminaCost lvl = 99999) ∧
    calculateStaminaCost 6 = 1538 / 100 := by
  intro lvl
  have hfl : (⌊(200 : ℚ) / 13 * 100 + 1 / 2⌋ : ℤ) = 1538 := by
    rw [Int.floor_eq_iff]
    norm_num
  have c6 : calculateStaminaCost 6 = 1538 / 100 := by
    have h65 : (1000 : ℚ) / (13 * (6 - 1)) = 200 / 13 := by norm_num
    norm_num [calculateStaminaCost, toFixed2, h65, hfl]
  refine ⟨?_, ?_, ?_, c6⟩
  · intro h
    simp [calculateStaminaCost, h]
  · intro h
    have h1 : ¬ lvl ≤ 1 := not_le.mpr h
    have h2 : ¬ (13 * (lvl - 1) ≤ 0) := by nlinarith
    simp [calculateStaminaCost, h1, h2]
  · intro h
    have h1 : lvl ≤ 1 := by nlinarith
    simp [calculateStaminaCost, h1]

/-- C9 witness: level 6 is above 1 and converts to 15.38. -/
theorem calculateStaminaCost_contract_witness :
    calculateStaminaCost 6 = toFixed2 (1000 / (13 * (6 - 1))) ∧
    calculateStaminaCost 6 = 1538 / 100 :=
  ⟨(calculateStaminaCost_contract 6).2.1 (by norm_num),
   (calculateStaminaCost_contract 6).2.2.2⟩

/-- C2 counterexample: in the dataset whose only recipe A (stamina 7)
lists itself as an ingredient, the stamina query does not fail with
circular_dependency: it returns the numeric result 7, the cyclic
self-reference having contributed 0.  (The stamina resolver has no
error outcome at all; contrast the cost resolver on the same dataset,
which does fail with circular_dependency.) -/
theorem stamina_cycle_numeric_cx :
    getStamina demoSelfCycle "A" 0 = some 7 ∧
    getTotalCostIncludingStamina demoSelfCycle "A" 0 =
      some (Except.error (CostError.circular_dependency "A")) := by
  constructor
  · norm_num [getStamina, staminaGo, demoSelfCycle, demoSettings, findRecipe,
      staminaIngredients, reductionFactor, jsRound_two, List.lookup]
  · norm_num [getTotalCostIncludingStamina, totalCostGo, demoSelfCycle, demoSettings,
      findRecipe, costIngredients, reductionFactor, List.lookup]

/-- C2 (corrected): when the stamina resolution path revisits a name
currently being resolved, getStamina returns 0 for that call — the
cyclic subtree's stamina defaults to zero — and the query still
produces a numeric result (7 for the self-referencing demo recipe)
rather than a circular_dependency failure. -/
theorem stamina_revisit_returns_zero :
    (∀ (d : AppData) (lvl : ℚ) (name : String) (visited : List String),
      name ∈ visited →
      staminaGo d lvl (d.recipes.length + 1) name visited = some 0) ∧
    getStamina demoSelfCycle "A" 0 = some 7 := by
  constructor
  · intro d lvl name visited h
    simp [staminaGo, h]
  · norm_num [getStamina, staminaGo, demoSelfCycle, demoSettings, findRecipe,
      staminaIngredients, reductionFactor, jsRound_two, List.lookup]

/-- C2 witness: the revisit branch at a concrete dataset. -/
theorem stamina_revisit_returns_zero_witness :
    staminaGo demoSelfCycle 0 (demoSelfCycle.recipes.length + 1) "A" ["A"] = some 0 :=
  stamina_revisit_returns_zero.1 demoSelfCycle 0 "A" ["A"] (by simp)

/-- C4 (confirmed): for a known material (present in materials; by the
data-model invariant a material name is not also a recipe name), both
cost resolvers return the price exactly when it is positive and fail
with material_price_missing carrying the name when it is not, and the
stamina resolver returns 0. -/
theorem material_resolution_contract :
    ∀ (d : AppData) (name : String) (price lvl : ℚ),
    d.materials.lookup name = some price →
    (0 < price →
      getMaterialCost d name lvl = some (Except.ok price) ∧
      getTotalCostIncludingStamina d name lvl = some (Except.ok price)) ∧
    (price ≤ 0 →
      getMaterialCost d name lvl =
        some (Except.error (CostError.material_price_missing name)) ∧
      getTotalCostIncludingStamina d name lvl =
        some (Except.error (CostError.material_price_missing name))) ∧
    (findRecipe d name = none → getStamina d name lvl = some 0) := by
  intro d name price lvl h
  refine ⟨?_, ?_, ?_⟩
  · intro hp
    have hnle : ¬ price ≤ 0 := not_le.mpr hp
    constructor
    · simp [getMaterialCost, materialCostGo, h, hnle]
    · simp [getTotalCostIncludingStamina, totalCostGo, h, hnle]
  · intro hp
    constructor
    · simp [getMaterialCost, materialCostGo, h, hp]
    · simp [getTotalCostIncludingStamina, totalCostGo, h, hp]
  · intro hr
    simp [getStamina, staminaGo, hr]

/-- C4 witness: a positive-priced material, a zero-priced material and
the stamina of a material, in one concrete dataset. -/
theorem material_resolution_contract_witness :
    (getMaterialCost demoChain "ore" 0 = some (Except.ok 1) ∧
     getTotalCostIncludingStamina demoChain "ore" 0 = some (Except.ok 1)) ∧
    getStamina demoChain "ore" 0 = some 0 :=
  ⟨(material_resolution_contract demoChain "ore" 1 0 (by decide)).1
     (by norm_num),
   (material_resolution_contract demoChain "ore" 1 0 (by decide)).2.2
     (by decide)⟩

/-- C1 counterexample: in the chain demo (A needs one B, B needs one
ore; each craft costs 1 stamina; stamina is worth 1 coin) the
stamina-inclusive total cost of A is 4, while materialCost(A) +
stamina(A) * stamina_cost = 1 + 2 * 1 = 3: B's own crafting stamina is
monetized once inside totalCost(B) and again inside the stamina total
added at A's level, so it is not counted exactly once. -/
theorem totalCost_not_material_plus_stamina_cx :
    getTotalCostIncludingStamina demoChain "A" 0 = some (Except.ok 4) ∧
    getMaterialCost demoChain "A" 0 = some (Except.ok 1) ∧
    getStamina demoChain "A" 0 = some 2 ∧
    demoChain.settings.stamina_cost.getD 0 = 1 ∧
    (4 : ℚ) ≠ 1 + 2 * 1 := by
  refine ⟨?_, ?_, ?_, ?_, by norm_num⟩
  · simp [getTotalCostIncludingStamina, totalCostGo, getStamina, staminaGo,
      demoChain, demoSettings, findRecipe, costIngredients, staminaIngredients,
      reductionFactor, jsRound_one, one_price_pos, List.lookup]
    norm_num
  · simp [getMaterialCost, materialCostGo, demoChain, demoSettings, findRecipe,
      costIngredients, reductionFactor, jsRound_one, one_price_pos, List.lookup]
  · simp [getStamina, staminaGo, demoChain, demoSettings, findRecipe,
      staminaIngredients, reductionFactor, jsRound_one, List.lookup]
    norm_num
  · simp [demoChain, demoSettings]

/-- C5 counterexample: at conservation level 0 a raw ingredient count
of 3/2 is still rounded (round(3/2 * 1) = 2), so the resolved material
cost of the demo recipe is 2, not the 3/2 an unreduced resolution
yields: level 0 is not an identity on non-integral counts. -/
theorem conservation_zero_rounds_cx :
    getMaterialCost demoHalfCount "A" 0 = some (Except.ok 2) ∧
    materialCostUnreduced demoHalfCount "A" = some (Except.ok (3 / 2)) ∧
    (2 : ℚ) ≠ 3 / 2 := by
  refine ⟨?_, ?_, by norm_num⟩
  · simp [getMaterialCost, materialCostGo, demoHalfCount, demoSettings, findRecipe,
      costIngredients, reductionFactor, jsRound_half3, one_price_pos, List.lookup]
  · simp [materialCostUnreduced, materialCostUnreducedGo, demoHalfCount, demoSettings,
      findRecipe, costIngredientsRaw, one_price_pos, List.lookup]

/-- At conservation level 0 the reduction factor is 1 for every
category. -/
theorem reductionFactor_zero (r : Recipe) : reductionFactor r 0 = 1 := by
  unfold reductionFactor
  split_ifs <;> norm_num

/-- A successful association-list lookup really is a member. -/
theorem lookup_mem {β : Type} (a : String) (b : β) :
    ∀ l : List (String × β), l.lookup a = some b → (a, b) ∈ l := by
  intro l
  induction l with
  | nil => intro h; simp [List.lookup] at h
  | cons p rest ih =>
    intro h
    cases p with
    | mk k v =>
      by_cases hk : a = k
      · subst hk
        simp [List.lookup] at h
        simp [h]
      · have hbeq : (a == k) = false := beq_eq_false_iff_ne.mpr hk
        simp only [List.lookup, hbeq] at h
        exact List.mem_cons_of_mem _ (ih h)

/-- The reduced ingredient fold at factor 1 agrees with the raw fold
when every count in the list is an integer and the resolvers agree. -/
theorem costIngredients_factor_one_raw
    (f g : String → Option (Except CostError ℚ)) (hfg : ∀ n, f n = g n) :
    ∀ l : List (String × ℚ), (∀ p ∈ l, ∃ k : ℤ, p.2 = (k : ℚ)) →
    costIngredients f 1 l = costIngredientsRaw g l := by
  intro l
  induction l with
  | nil => intro _; rfl
  | cons p rest ih =>
    intro hl
    obtain ⟨n, c⟩ := p
    obtain ⟨k, hk⟩ := hl (n, c) (by simp)
    simp only [costIngredients, costIngredientsRaw, hfg]
    cases g n with
    | none => rfl
    | some r =>
      cases r with
      | error e => rfl
      | ok v =>
        rw [ih (fun q hq => hl q (List.mem_cons_of_mem _ hq))]
        cases costIngredientsRaw g rest with
        | none => rfl
        | some r2 =>
          cases r2 with
          | error e => rfl
          | ok s =>
            have hk' : c = (k : ℚ) := hk
            have hround : jsRound (c * 1) = k := by
              rw [mul_one, hk', jsRound_int]
            rw [hround, hk']

/-- At conservation level 0, material-cost resolution of a dataset
whose counts are all integral coincides with unreduced resolution,
fuel level by fuel level. -/
theorem materialCostGo_zero_integral (d : AppData) (h : IntegralCounts d) :
    ∀ (fuel : Nat) (name : String) (visited : List String),
      materialCostGo d 0 fuel name visited = materialCostUnreducedGo d fuel name visited := by
  intro fuel
  induction fuel with
  | zero => intro name visited; rfl
  | succ fuel ih =>
    intro name visited
    simp only [materialCostGo, materialCostUnreducedGo]
    cases hm : d.materials.lookup name with
    | some price => rfl
    | none =>
      cases hr : findRecipe d name with
      | none => rfl
      | some recipe =>
        by_cases hv : name ∈ visited
        · simp [hv]
        · simp only [if_neg hv]
          rw [reductionFactor_zero]
          exact costIngredients_factor_one_raw _ _ (fun n => ih n (name :: visited))
            recipe.ingredients
            (fun p hp => h (name, recipe) (lookup_mem name recipe d.recipes hr) p hp)

/-- C5 (corrected): conservation level 0 leaves the reduction factor at
1 for every category, but the code still rounds every effective count
(round(c * 1) = round(c)), so level 0 is an identity on ingredient
counts only when the raw counts are integral; for a dataset whose
counts are all integers, material-cost resolution at level 0 equals
resolution without any count reduction.  (The claim fails at the
non-integral count 3/2.) -/
theorem conservation_zero_integral_identity :
    (∀ r : Recipe, reductionFactor r 0 = 1) ∧
    (∀ k : ℤ, jsRound ((k : ℚ)) = k) ∧
    (∀ d : AppData, IntegralCounts d → ∀ name : String,
      getMaterialCost d name 0 = materialCostUnreduced d name) := by
  refine ⟨reductionFactor_zero, jsRound_int, ?_⟩
  intro d h name
  exact materialCostGo_zero_integral d h (d.recipes.length + 1) name []

/-- C5 witness: the integral-count demo dataset resolves identically
with and without count reduction at level 0. -/
theorem conservation_zero_integral_identity_witness :
    IntegralCounts demoIntCount ∧
    getMaterialCost demoIntCount "A" 0 = materialCostUnreduced demoIntCount "A" := by
  have hint : IntegralCounts demoIntCount := by
    intro r hr p hp
    simp only [demoIntCount] at hr
    simp only [List.mem_singleton] at hr
    subst hr
    simp only [List.mem_singleton] at hp
    subst hp
    exact ⟨2, by norm_num⟩
  exact ⟨hint, conservation_zero_integral_identity.2.2 demoIntCount hint "A"⟩

/-- Fold-level step of the total-cost identity: if the material-cost
fold of an ingredient list succeeds with sum m, and the identity holds
pointwise for the resolvers, then the total-cost fold equals m plus
the deep-stamina fold times the stamina value. -/
theorem costIngredients_map_deep (c : ℚ)
    (fM fT : String → Option (Except CostError ℚ)) (fDS : String → Option ℚ)
    (hpt : ∀ n m, fM n = some (Except.ok m) →
      fT n = Option.map (fun ds => Except.ok (m + ds * c)) (fDS n))
    (factor : ℚ) :
    ∀ (l : List (String × ℚ)) (m : ℚ),
      costIngredients fM factor l = some (Except.ok m) →
      costIngredients fT factor l =
        Option.map (fun ds => Except.ok (m + ds * c)) (staminaIngredients fDS factor l) := by
  intro l
  induction l with
  | nil =>
    intro m hm
    simp only [costIngredients, Option.some.injEq, Except.ok.injEq] at hm
    subst hm
    simp only [costIngredients, staminaIngredients, Option.map_some', Option.some.injEq,
      Except.ok.injEq]
    ring
  | cons p rest ih =>
    obtain ⟨n, cnt⟩ := p
    intro m hm
    simp only [costIngredients] at hm ⊢
    simp only [staminaIngredients]
    cases hfm : fM n with
    | none => rw [hfm] at hm; simp at hm
    | some r =>
      cases r with
      | error e => rw [hfm] at hm; simp at hm
      | ok v =>
        rw [hfm] at hm
        cases hrest : costIngredients fM factor rest with
        | none => rw [hrest] at hm; simp at hm
        | some r2 =>
          cases r2 with
          | error e => rw [hrest] at hm; simp at hm
          | ok s =>
            rw [hrest] at hm
            have hmeq : v * (jsRound (cnt * factor) : ℚ) + s = m := by
              simpa using hm
            rw [hpt n v hfm, ih s hrest]
            cases fDS n with
            | none => rfl
            | some dsn =>
              cases staminaIngredients fDS factor rest with
              | none => rfl
              | some dss =>
                simp only [Option.map_some', Option.some.injEq, Except.ok.injEq]
                rw [← hmeq]
                ring

/-- Node-level total-cost identity, fuel level by fuel level: whenever
material-cost resolution succeeds with value m, total-cost resolution
computes m plus the deep stamina times the configured stamina value. -/
theorem totalCostGo_eq_material_add_deep (d : AppData) (lvl : ℚ) :
    ∀ (fuel : Nat) (name : String) (visited : List String) (m : ℚ),
      materialCostGo d lvl fuel name visited = some (Except.ok m) →
      totalCostGo d lvl fuel name visited =
        Option.map (fun ds => Except.ok (m + ds * d.settings.stamina_cost.getD 0))
          (deepStaminaGo d lvl fuel name visited) := by
  intro fuel
  induction fuel with
  | zero =>
    intro name visited m hm
    simp [materialCostGo] at hm
  | succ fuel ih =>
    intro name visited m hm
    simp only [materialCostGo] at hm
    cases hmat : d.materials.lookup name with
    | some price =>
      simp only [hmat] at hm
      by_cases hle : price ≤ 0
      · simp [if_pos hle] at hm
      · simp only [if_neg hle, Option.some.injEq, Except.ok.injEq] at hm
        subst hm
        simp only [totalCostGo, deepStaminaGo, hmat, if_neg hle, Option.map_some',
          Option.some.injEq, Except.ok.injEq]
        ring
    | none =>
      simp only [hmat] at hm
      cases hrec : findRecipe d name with
      | none => simp [hrec] at hm
      | some recipe =>
        simp only [hrec] at hm
        by_cases hv : name ∈ visited
        · simp [if_pos hv] at hm
        · simp only [if_neg hv] at hm
          have hfold := costIngredients_map_deep (d.settings.stamina_cost.getD 0)
            (fun ingName => materialCostGo d lvl fuel ingName (name :: visited))
            (fun ingName => totalCostGo d lvl fuel ingName (name :: visited))
            (fun ingName => deepStaminaGo d lvl fuel ingName (name :: visited))
            (fun n' m' h' => ih n' (name :: visited) m' h')
            (reductionFactor recipe lvl) recipe.ingredients m hm
          simp only [totalCostGo, deepStaminaGo, hmat, hrec, if_neg hv, hfold]
          cases staminaIngredients
              (fun ingName => deepStaminaGo d lvl fuel ingName (name :: visited))
              (reductionFactor recipe lvl) recipe.ingredients with
          | none => rfl
          | some dsFold =>
            simp only [Option.map_some']
            cases staminaGo d lvl (d.recipes.length + 1) name [] with
            | none => rfl
            | some sOwn =>
              simp only [Option.map_some', Option.some.injEq, Except.ok.injEq]
              ring

/-- C1 (corrected): whenever material cost resolves, the
stamina-inclusive total cost equals
getMaterialCost(name) + deepStamina(name) * settings.stamina_cost,
where deepStamina adds, at every recipe node of the expansion tree,
that node's entire effective subtree stamina (the getStamina value the
source adds at that level).  An ingredient's crafting stamina is
therefore monetized once per ancestor recipe level, not exactly once:
the claimed identity with getStamina itself fails on the chain demo. -/
theorem totalCost_eq_material_add_deepStamina :
    ∀ (d : AppData) (lvl : ℚ) (name : String) (m : ℚ),
      getMaterialCost d name lvl = some (Except.ok m) →
      getTotalCostIncludingStamina d name lvl =
        Option.map (fun ds => Except.ok (m + ds * d.settings.stamina_cost.getD 0))
          (deepStamina d name lvl) := by
  intro d lvl name m hm
  exact totalCostGo_eq_material_add_deep d lvl (d.recipes.length + 1) name [] m hm

/-- C1 witness: the identity instantiated on the chain demo, where the
material cost of A is 1. -/
theorem totalCost_eq_material_add_deepStamina_witness :
    getMaterialCost demoChain "A" 0 = some (Except.ok 1) ∧
    getTotalCostIncludingStamina demoChain "A" 0 =
      Option.map (fun ds => Except.ok (1 + ds * demoChain.settings.stamina_cost.getD 0))
        (deepStamina demoChain "A" 0) := by
  have hm : getMaterialCost demoChain "A" 0 = some (Except.ok 1) := by
    simp [getMaterialCost, materialCostGo, demoChain, demoSettings, findRecipe,
      costIngredients, reductionFactor, jsRound_one, one_price_pos, List.lookup]
  exact ⟨hm, totalCost_eq_material_add_deepStamina demoChain 0 "A" 1 hm⟩

/-- A successful lookup needs a nonempty list. -/
theorem lookup_length_pos {β : Type} (a : String) (b : β) (l : List (String × β))
    (h : l.lookup a = some b) : 1 ≤ l.length := by
  cases l with
  | nil => simp [List.lookup] at h
  | cons p rest => simp

/-- Successful lookups of two distinct keys need at least two entries. -/
theorem two_keys_length {β : Type} (a b : String) (x y : β) (hne : a ≠ b) :
    ∀ l : List (String × β), l.lookup a = some x → l.lookup b = some y →
    2 ≤ l.length := by
  intro l
  induction l with
  | nil => intro ha _; simp [List.lookup] at ha
  | cons p rest ih =>
    intro ha hb
    cases p with
    | mk k v =>
      by_cases hk : a = k
      · have hbk : b ≠ k := by rw [← hk]; exact Ne.symm hne
        have hbeq : (b == k) = false := beq_eq_false_iff_ne.mpr hbk
        simp only [List.lookup, hbeq] at hb
        have := lookup_length_pos b y rest hb
        simp only [List.length_cons]
        omega
      · have hbeq : (a == k) = false := beq_eq_false_iff_ne.mpr hk
        simp only [List.lookup, hbeq] at ha
        have := lookup_length_pos a x rest ha
        simp only [List.length_cons]
        omega

/-- Total-cost resolution of either member of a mutually-referencing
recipe pair fails with circular_dependency at the queried name, for
any fuel at least 3 (the cycle is detected three levels down). -/
theorem totalCostGo_mutual_cycle (d : AppData) (lvl : ℚ) (a b : String)
    (ra rb : Recipe) (ca cb : ℚ) (hne : a ≠ b)
    (hma : d.materials.lookup a = none) (hmb : d.materials.lookup b = none)
    (hra : findRecipe d a = some ra) (hrb : findRecipe d b = some rb)
    (hia : ra.ingredients = [(b, cb)]) (hib : rb.ingredients = [(a, ca)]) :
    ∀ fuel : Nat, totalCostGo d lvl (fuel + 3) a [] =
      some (Except.error (CostError.circular_dependency a)) := by
  intro fuel
  have h3 : fuel + 3 = ((fuel + 1) + 1) + 1 := rfl
  rw [h3]
  simp [totalCostGo, costIngredients, hma, hmb, hra, hrb, hia, hib, hne, Ne.symm hne]

/-- Material-cost resolution fails the same way on the same pair. -/
theorem materialCostGo_mutual_cycle (d : AppData) (lvl : ℚ) (a b : String)
    (ra rb : Recipe) (ca cb : ℚ) (hne : a ≠ b)
    (hma : d.materials.lookup a = none) (hmb : d.materials.lookup b = none)
    (hra : findRecipe d a = some ra) (hrb : findRecipe d b = some rb)
    (hia : ra.ingredients = [(b, cb)]) (hib : rb.ingredients = [(a, ca)]) :
    ∀ fuel : Nat, materialCostGo d lvl (fuel + 3) a [] =
      some (Except.error (CostError.circular_dependency a)) := by
  intro fuel
  have h3 : fuel + 3 = ((fuel + 1) + 1) + 1 := rfl
  rw [h3]
  simp [materialCostGo, costIngredients, hma, hmb, hra, hrb, hia, hib, hne, Ne.symm hne]

/-- A successful ingredient fold resolved every listed ingredient
successfully. -/
theorem costIngredients_ok_member
    (f : String → Option (Except CostError ℚ)) (factor : ℚ) :
    ∀ (l : List (String × ℚ)) (s : ℚ),
      costIngredients f factor l = some (Except.ok s) →
      ∀ p ∈ l, ∃ v, f p.1 = some (Except.ok v) := by
  intro l
  induction l with
  | nil => intro s _ p hp; simp at hp
  | cons q rest ih =>
    obtain ⟨n, c⟩ := q
    intro s hs p hp
    simp only [costIngredients] at hs
    cases hfn : f n with
    | none => rw [hfn] at hs; simp at hs
    | some r =>
      cases r with
      | error e => rw [hfn] at hs; simp at hs
      | ok v =>
        rw [hfn] at hs
        cases hrest : costIngredients f factor rest with
        | none => rw [hrest] at hs; simp at hs
        | some r2 =>
          cases r2 with
          | error e => rw [hrest] at hs; simp at hs
          | ok s2 =>
            rcases List.mem_cons.mp hp with hpe | hpm
            · subst hpe; exact ⟨v, hfn⟩
            · exact ih s2 hrest p hpm

/-- Total-cost resolution of a member of a mutually-referencing recipe
pair never yields a numeric result, for any fuel and any other
ingredients the two lists may carry: a successful run would have to
resolve the partner, which would have to resolve the queried name
again on the same path, where the cycle check fires. -/
theorem totalCostGo_mutual_never_ok (d : AppData) (lvl : ℚ) (a b : String)
    (ra rb : Recipe)
    (hma : d.materials.lookup a = none) (hmb : d.materials.lookup b = none)
    (hra : findRecipe d a = some ra) (hrb : findRecipe d b = some rb)
    (hia : ∃ cb, (b, cb) ∈ ra.ingredients) (hib : ∃ ca, (a, ca) ∈ rb.ingredients) :
    ∀ (fuel : Nat) (v : ℚ), totalCostGo d lvl fuel a [] ≠ some (Except.ok v) := by
  intro fuel v h
  obtain ⟨cb, hcb⟩ := hia
  obtain ⟨ca, hca⟩ := hib
  cases fuel with
  | zero => simp [totalCostGo] at h
  | succ f1 =>
    simp only [totalCostGo, hma, hra] at h
    rw [if_neg (List.not_mem_nil a)] at h
    cases hfold : costIngredients
        (fun ingName => totalCostGo d lvl f1 ingName (a :: []))
        (reductionFactor ra lvl) ra.ingredients with
    | none => rw [hfold] at h; simp at h
    | some r =>
      cases r with
      | error e => rw [hfold] at h; simp at h
      | ok s =>
        obtain ⟨vb, hvb⟩ := costIngredients_ok_member _ _ ra.ingredients s hfold (b, cb) hcb
        cases f1 with
        | zero => simp [totalCostGo] at hvb
        | succ f2 =>
          simp only [totalCostGo, hmb, hrb] at hvb
          by_cases hba : b ∈ [a]
          · rw [if_pos hba] at hvb; simp at hvb
          · rw [if_neg hba] at hvb
            cases hfold2 : costIngredients
                (fun ingName => totalCostGo d lvl f2 ingName (b :: [a]))
                (reductionFactor rb lvl) rb.ingredients with
            | none => rw [hfold2] at hvb; simp at hvb
            | some r2 =>
              cases r2 with
              | error e => rw [hfold2] at hvb; simp at hvb
              | ok s2 =>
                obtain ⟨va, hva⟩ :=
                  costIngredients_ok_member _ _ rb.ingredients s2 hfold2 (a, ca) hca
                cases f2 with
                | zero => simp [totalCostGo] at hva
                | succ f3 =>
                  simp only [totalCostGo, hma, hra] at hva
                  rw [if_pos (by simp : a ∈ b :: [a])] at hva
                  simp at hva

/-- Material-cost resolution never yields a numeric result on the same
pair, by the same argument. -/
theorem materialCostGo_mutual_never_ok (d : AppData) (lvl : ℚ) (a b : String)
    (ra rb : Recipe)
    (hma : d.materials.lookup a = none) (hmb : d.materials.lookup b = none)
    (hra : findRecipe d a = some ra) (hrb : findRecipe d b = some rb)
    (hia : ∃ cb, (b, cb) ∈ ra.ingredients) (hib : ∃ ca, (a, ca) ∈ rb.ingredients) :
    ∀ (fuel : Nat) (v : ℚ), materialCostGo d lvl fuel a [] ≠ some (Except.ok v) := by
  intro fuel v h
  obtain ⟨cb, hcb⟩ := hia
  obtain ⟨ca, hca⟩ := hib
  cases fuel with
  | zero => simp [materialCostGo] at h
  | succ f1 =>
    simp only [materialCostGo, hma, hra] at h
    rw [if_neg (List.not_mem_nil a)] at h
    obtain ⟨vb, hvb⟩ := costIngredients_ok_member _ _ ra.ingredients v h (b, cb) hcb
    cases f1 with
    | zero => simp [materialCostGo] at hvb
    | succ f2 =>
      simp only [materialCostGo, hmb, hrb] at hvb
      by_cases hba : b ∈ [a]
      · rw [if_pos hba] at hvb; simp at hvb
      · rw [if_neg hba] at hvb
        obtain ⟨va, hva⟩ := costIngredients_ok_member _ _ rb.ingredients vb hvb (a, ca) hca
        cases f2 with
        | zero => simp [materialCostGo] at hva
        | succ f3 =>
          simp only [materialCostGo, hma, hra] at hva
          rw [if_pos (by simp : a ∈ b :: [a])] at hva
          simp at hva

/-- C3 counterexample: in demoMaskedCycle recipes A and B reference
each other (A lists B among its ingredients, B lists A), yet resolving
A's cost does not fail with circular_dependency: A's ingredient list
names the unknown item X before B, the loop short-circuits on the
first error, and both resolvers return item_not_found for X. -/
theorem cost_cycle_masked_cx :
    demoMaskedCycle.materials.lookup "A" = none ∧
    demoMaskedCycle.materials.lookup "B" = none ∧
    (findRecipe demoMaskedCycle "A").map Recipe.ingredients =
      some [("X", 1), ("B", 1)] ∧
    (findRecipe demoMaskedCycle "B").map Recipe.ingredients = some [("A", 1)] ∧
    getTotalCostIncludingStamina demoMaskedCycle "A" 0 =
      some (Except.error (CostError.item_not_found "X")) ∧
    getMaterialCost demoMaskedCycle "A" 0 =
      some (Except.error (CostError.item_not_found "X")) := by
  refine ⟨by decide, by decide, by decide, by decide, ?_, ?_⟩
  · simp [getTotalCostIncludingStamina, totalCostGo, demoMaskedCycle, demoSettings,
      findRecipe, costIngredients, reductionFactor, List.lookup]
  · simp [getMaterialCost, materialCostGo, demoMaskedCycle, demoSettings,
      findRecipe, costIngredients, reductionFactor, List.lookup]

/-- C3 (corrected): for every pair of recipes whose ingredient lists
reference each other (neither name a material), resolving the total
cost or the material cost of either one never yields a numeric result,
regardless of which is queried first — and when each one's ingredient
list is exactly the reference to the other (the spec's A to B to A
shape with no other ingredients), the failure kind is specifically
circular_dependency carrying the queried name.  An ingredient listed
before the cycle partner that itself fails surfaces its own error
instead, because the ingredient loop short-circuits on the first
error.  Diamond-shaped reuse, by contrast, resolves: in demoDiamond
(A uses B and C, both of which use material D) the resolvers succeed
because each recursive branch receives its own copy of the tracking
set; and a directly self-referencing recipe also fails with
circular_dependency. -/
theorem cost_cycle_and_diamond :
    (∀ (d : AppData) (lvl : ℚ) (a b : String) (ra rb : Recipe),
      d.materials.lookup a = none → d.materials.lookup b = none →
      findRecipe d a = some ra → findRecipe d b = some rb →
      (∃ cb, (b, cb) ∈ ra.ingredients) → (∃ ca, (a, ca) ∈ rb.ingredients) →
      (∀ v : ℚ, getTotalCostIncludingStamina d a lvl ≠ some (Except.ok v)) ∧
      (∀ v : ℚ, getTotalCostIncludingStamina d b lvl ≠ some (Except.ok v)) ∧
      (∀ v : ℚ, getMaterialCost d a lvl ≠ some (Except.ok v)) ∧
      (∀ v : ℚ, getMaterialCost d b lvl ≠ some (Except.ok v))) ∧
    (∀ (d : AppData) (lvl : ℚ) (a b : String) (ra rb : Recipe) (ca cb : ℚ),
      a ≠ b →
      d.materials.lookup a = none → d.materials.lookup b = none →
      findRecipe d a = some ra → findRecipe d b = some rb →
      ra.ingredients = [(b, cb)] → rb.ingredients = [(a, ca)] →
      getTotalCostIncludingStamina d a lvl =
        some (Except.error (CostError.circular_dependency a)) ∧
      getTotalCostIncludingStamina d b lvl =
        some (Except.error (CostError.circular_dependency b)) ∧
      getMaterialCost d a lvl =
        some (Except.error (CostError.circular_dependency a)) ∧
      getMaterialCost d b lvl =
        some (Except.error (CostError.circular_dependency b))) ∧
    getTotalCostIncludingStamina demoSelfCycle "A" 0 =
      some (Except.error (CostError.circular_dependency "A")) ∧
    getTotalCostIncludingStamina demoDiamond "A" 0 = some (Except.ok 7) ∧
    getMaterialCost demoDiamond "A" 0 = some (Except.ok 2) := by
  refine ⟨?_, ?_, ?_, ?_, ?_⟩
  · intro d lvl a b ra rb hma hmb hra hrb hia hib
    refine ⟨?_, ?_, ?_, ?_⟩
    · intro v
      exact totalCostGo_mutual_never_ok d lvl a b ra rb hma hmb hra hrb hia hib
        (d.recipes.length + 1) v
    · intro v
      exact totalCostGo_mutual_never_ok d lvl b a rb ra hmb hma hrb hra hib hia
        (d.recipes.length + 1) v
    · intro v
      exact materialCostGo_mutual_never_ok d lvl a b ra rb hma hmb hra hrb hia hib
        (d.recipes.length + 1) v
    · intro v
      exact materialCostGo_mutual_never_ok d lvl b a rb ra hmb hma hrb hra hib hia
        (d.recipes.length + 1) v
  · intro d lvl a b ra rb ca cb hne hma hmb hra hrb hia hib
    have hlen : 2 ≤ d.recipes.length := two_keys_length a b ra rb hne d.recipes hra hrb
    obtain ⟨n, hn⟩ : ∃ n, d.recipes.length + 1 = n + 3 :=
      ⟨d.recipes.length - 2, by omega⟩
    refine ⟨?_, ?_, ?_, ?_⟩
    · simp only [getTotalCostIncludingStamina, hn]
      exact totalCostGo_mutual_cycle d lvl a b ra rb ca cb hne hma hmb hra hrb hia hib n
    · simp only [getTotalCostIncludingStamina, hn]
      exact totalCostGo_mutual_cycle d lvl b a rb ra cb ca (Ne.symm hne) hmb hma hrb hra
        hib hia n
    · simp only [getMaterialCost, hn]
      exact materialCostGo_mutual_cycle d lvl a b ra rb ca cb hne hma hmb hra hrb hia hib n
    · simp only [getMaterialCost, hn]
      exact materialCostGo_mutual_cycle d lvl b a rb ra cb ca (Ne.symm hne) hmb hma hrb hra
        hib hia n
  · simp [getTotalCostIncludingStamina, totalCostGo, demoSelfCycle, demoSettings,
      findRecipe, costIngredients, reductionFactor, List.lookup]
  · simp [getTotalCostIncludingStamina, totalCostGo, getStamina, staminaGo, demoDiamond,
      demoSettings, findRecipe, costIngredients, staminaIngredients, reductionFactor,
      jsRound_one, one_price_pos, List.lookup]
    norm_num
  · simp [getMaterialCost, materialCostGo, demoDiamond, demoSettings, findRecipe,
      costIngredients, reductionFactor, jsRound_one, one_price_pos, List.lookup]
    norm_num

/-- C3 witness: the never-numeric part on the masked-cycle demo and
the circular_dependency part on the exact mutual pair. -/
theorem cost_cycle_and_diamond_witness :
    getTotalCostIncludingStamina demoMaskedCycle "A" 0 ≠ some (Except.ok 5) ∧
    getTotalCostIncludingStamina demoMutual "A" 0 =
      some (Except.error (CostError.circular_dependency "A")) ∧
    getMaterialCost demoMutual "B" 0 =
      some (Except.error (CostError.circular_dependency "B")) := by
  have hmask := cost_cycle_and_diamond.1 demoMaskedCycle 0 "A" "B"
    { stamina := 1, category := "기타", ingredients := [("X", 1), ("B", 1)] }
    { stamina := 1, category := "기타", ingredients := [("A", 1)] }
    (by decide) (by decide) (by decide) (by decide)
    ⟨1, by decide⟩ ⟨1, by decide⟩
  have hpair := cost_cycle_and_diamond.2.1 demoMutual 0 "A" "B"
    { stamina := 1, category := "기타", ingredients := [("B", 1)] }
    { stamina := 1, category := "기타", ingredients := [("A", 1)] }
    1 1 (by decide) (by decide) (by decide) (by decide) (by decide) rfl rfl
  exact ⟨hmask.1 5, hpair.1, hpair.2.2.2⟩

/-- Loop invariant of the best-achievable search: started at
maxDeliveries = m with the matching cumulative unit total, the loop
only moves forward, never beyond 50, keeps the cumulative efficiency
at or above the limit for every delivery it accepts, and (when it
stops before the cap with fuel to spare) stops precisely because the
next delivery would fall below the limit. -/
theorem searchLoop_spec (u r l : ℚ) :
    ∀ (fuel m res : Nat),
      searchLoop u r l fuel m (sumReqCounts m) = res →
      m ≤ res ∧ (m ≤ 50 → res ≤ 50) ∧
      (∀ k, m < k → k ≤ res → l ≤ cumulativeEfficiency u r k) ∧
      (res < 50 → res < m + fuel → cumulativeEfficiency u r (res + 1) < l) := by
  intro fuel
  induction fuel with
  | zero =>
    intro m res h
    simp only [searchLoop] at h
    subst h
    exact ⟨le_refl m, fun hm => hm, fun k hk1 hk2 => absurd hk2 (by omega),
      fun _ h2 => absurd h2 (by omega)⟩
  | succ fuel ih =>
    intro m res h
    by_cases h50 : m < 50
    · have hbody : searchLoop u r l (fuel + 1) m (sumReqCounts m) =
          if l ≤ cumulativeEfficiency u r (m + 1) then
            searchLoop u r l fuel (m + 1) (sumReqCounts (m + 1))
          else m := by
        simp only [searchLoop, if_pos h50]
        rfl
      rw [hbody] at h
      by_cases heff : l ≤ cumulativeEfficiency u r (m + 1)
      · rw [if_pos heff] at h
        obtain ⟨h1, h2, h3, h4⟩ := ih (m + 1) res h
        refine ⟨by omega, fun _ => h2 (by omega), ?_, ?_⟩
        · intro k hk1 hk2
          by_cases hk : k = m + 1
          · subst hk; exact heff
          · exact h3 k (by omega) hk2
        · intro ha hb
          exact h4 ha (by omega)
      · rw [if_neg heff] at h
        subst h
        exact ⟨le_refl m, fun hm => hm, fun k hk1 hk2 => absurd hk2 (by omega),
          fun _ _ => not_le.mp heff⟩
    · have hbody : searchLoop u r l (fuel + 1) m (sumReqCounts m) = m := by
        simp only [searchLoop, if_neg h50]
      rw [hbody] at h
      subst h
      exact ⟨le_refl m, fun hm => hm, fun k hk1 hk2 => absurd hk2 (by omega),
        fun h1 _ => absurd h1 (by omega)⟩

/-- For every count at least 1 the milestone search finds the largest
canonical milestone at or below it. -/
theorem bestMilestoneFor_spec (n : Nat) (h : 1 ≤ n) :
    ∃ mile, bestMilestoneFor n = some mile ∧ 1 ≤ mile ∧ mile ≤ n ∧
      ∀ m ∈ milestones, m ≤ n → m ≤ mile := by
  by_cases h25 : 25 ≤ n
  · refine ⟨25, ?_, by omega, h25, ?_⟩
    · simp [bestMilestoneFor, milestones, List.find?, h25]
    · intro m hm hmn
      simp [milestones] at hm
      rcases hm with rfl | rfl | rfl | rfl | rfl <;> omega
  · by_cases h20 : 20 ≤ n
    · refine ⟨20, ?_, by omega, h20, ?_⟩
      · simp [bestMilestoneFor, milestones, List.find?, h25, h20]
      · intro m hm hmn
        simp [milestones] at hm
        rcases hm with rfl | rfl | rfl | rfl | rfl <;> omega
    · by_cases h10 : 10 ≤ n
      · refine ⟨10, ?_, by omega, h10, ?_⟩
        · simp [bestMilestoneFor, milestones, List.find?, h25, h20, h10]
        · intro m hm hmn
          simp [milestones] at hm
          rcases hm with rfl | rfl | rfl | rfl | rfl <;> omega
      · by_cases h2 : 2 ≤ n
        · refine ⟨2, ?_, by omega, h2, ?_⟩
          · simp [bestMilestoneFor, milestones, List.find?, h25, h20, h10, h2]
          · intro m hm hmn
            simp [milestones] at hm
            rcases hm with rfl | rfl | rfl | rfl | rfl <;> omega
        · refine ⟨1, ?_, by omega, h, ?_⟩
          · simp [bestMilestoneFor, milestones, List.find?, h25, h20, h10, h2, h]
          · intro m hm hmn
            simp [milestones] at hm
            rcases hm with rfl | rfl | rfl | rfl | rfl <;> omega

/-- C6 (confirmed): in best-achievable mode (deliveryMode "default"),
when the threshold search yields maxDeliveries at least 1 and the
resolved unit cost is positive, the recommended round is the largest
canonical milestone in {25, 20, 10, 2, 1} at or below maxDeliveries,
and the reported aggregates are recomputed at that milestone:
totalItems is the cumulative sum of requiredUnits over 1..milestone,
totalProfit is reward times the milestone, totalCost is unitCost times
totalItems, and averageEfficiency is totalProfit / totalCost.  The
search itself accepts a delivery count only while the cumulative
efficiency stays at or above the configured limit, stops at the first
failure, and is capped at 50.  (calcEfficiencyAt is calcEfficiency
after its conservation-level defaulting; display rounding excluded.) -/
theorem calcEfficiency_default_milestone_snap :
    ∀ (d : AppData) (itemName : String) (reward cC uC uS lvl : ℚ) (maxD : Nat),
      getMaterialCost d itemName lvl = some (Except.ok cC) →
      getTotalCostIncludingStamina d itemName lvl = some (Except.ok uC) →
      getStamina d itemName lvl = some uS →
      0 < uC →
      searchLoop uC reward d.settings.efficiency_limit 51 0 0 = maxD →
      1 ≤ maxD →
      ∃ mile : Nat,
        bestMilestoneFor maxD = some mile ∧
        calcEfficiencyAt d lvl itemName reward "default" =
          some (Except.ok
            { mode := "default", recommend := true, round := some mile, msg := none,
              totalItems := sumReqCounts mile,
              totalProfit := reward * (mile : ℚ),
              averageEfficiency :=
                reward * (mile : ℚ) / (uC * (sumReqCounts mile : ℚ)),
              unitCost := uC,
              consumedCoin := cC * (sumReqCounts mile : ℚ),
              totalCost := uC * (sumReqCounts mile : ℚ),
              totalStamina := uS * (sumReqCounts mile : ℚ) }) ∧
        mile ≤ maxD ∧ (∀ m ∈ milestones, m ≤ maxD → m ≤ mile) ∧
        maxD ≤ 50 ∧
        (∀ k, 1 ≤ k → k ≤ maxD →
          d.settings.efficiency_limit ≤ cumulativeEfficiency uC reward k) ∧
        (maxD < 50 →
          cumulativeEfficiency uC reward (maxD + 1) < d.settings.efficiency_limit) := by
  intro d itemName reward cC uC uS lvl maxD hm ht hs hpos hmax h1
  obtain ⟨mile, hfind, hmile1, hmilen, hlargest⟩ := bestMilestoneFor_spec maxD h1
  obtain ⟨hmle, hcap, hall, hnext⟩ :=
    searchLoop_spec uC reward d.settings.efficiency_limit 51 0 maxD hmax
  refine ⟨mile, hfind, ?_, hmilen, hlargest, hcap (by omega), hall, ?_⟩
  · have hsum : (1 : ℚ) ≤ (sumReqCounts mile : ℚ) := by
      exact_mod_cast sumReqCounts_pos mile hmile1
    have hpos2 : uC * (sumReqCounts mile : ℚ) > 0 :=
      mul_pos hpos (lt_of_lt_of_le one_pos hsum)
    simp only [calcEfficiencyAt, hm, ht, hs]
    rw [if_neg (ne_of_gt hpos)]
    rw [if_pos trivial]
    rw [hmax]
    rw [if_neg (by omega : ¬ maxD = 0)]
    rw [hfind]
    dsimp only
    rw [if_pos hpos2]
  · intro h50
    exact hnext h50 (by omega)

/-- C6 witness: the unit demo at threshold 1 searches to maxDeliveries
1 and snaps to milestone 1. -/
theorem calcEfficiency_default_milestone_snap_witness :
    ∃ mile : Nat,
      bestMilestoneFor 1 = some mile ∧
      calcEfficiencyAt demoUnit 0 "A" 1 "default" =
        some (Except.ok
          { mode := "default", recommend := true, round := some mile, msg := none,
            totalItems := sumReqCounts mile,
            totalProfit := 1 * (mile : ℚ),
            averageEfficiency :=
              1 * (mile : ℚ) / (1 * (sumReqCounts mile : ℚ)),
            unitCost := 1,
            consumedCoin := 1 * (sumReqCounts mile : ℚ),
            totalCost := 1 * (sumReqCounts mile : ℚ),
            totalStamina := 0 * (sumReqCounts mile : ℚ) }) ∧
      mile ≤ 1 ∧ (∀ m ∈ milestones, m ≤ 1 → m ≤ mile) ∧
      (1 : Nat) ≤ 50 ∧
      (∀ k, 1 ≤ k → k ≤ 1 →
        demoUnit.settings.efficiency_limit ≤ cumulativeEfficiency 1 1 k) ∧
      ((1 : Nat) < 50 →
        cumulativeEfficiency 1 1 (1 + 1) < demoUnit.settings.efficiency_limit) := by
  have hm : getMaterialCost demoUnit "A" 0 = some (Except.ok 1) := by
    simp [getMaterialCost, materialCostGo, demoUnit, findRecipe, costIngredients,
      reductionFactor, jsRound_one, one_price_pos, List.lookup]
  have ht : getTotalCostIncludingStamina demoUnit "A" 0 = some (Except.ok 1) := by
    set_option maxRecDepth 4000 in
    simp [getTotalCostIncludingStamina, totalCostGo, getStamina, staminaGo, demoUnit,
      findRecipe, costIngredients, staminaIngredients, reductionFactor, jsRound_one,
      one_price_pos, List.lookup]
  have hs : getStamina demoUnit "A" 0 = some 0 := by
    simp [getStamina, staminaGo, demoUnit, findRecipe, staminaIngredients,
      reductionFactor, jsRound_one, List.lookup]
  have hsearch : searchLoop 1 1 demoUnit.settings.efficiency_limit 51 0 0 = 1 := by
    have h1 : demoUnit.settings.efficiency_limit = 1 := rfl
    rw [h1]
    rw [show (51 : Nat) = 50 + 1 from rfl]
    rw [searchLoop]
    norm_num [getReqCount]
    rw [show (50 : Nat) = 49 + 1 from rfl]
    rw [searchLoop]
    norm_num [getReqCount]
  exact calcEfficiency_default_milestone_snap demoUnit "A" 1 1 1 0 0 1 hm ht hs
    (by norm_num) hsearch (by norm_num)

/-- Any non-default mode found in the fixed-simulation map computes the
fixed-simulation record for its mapped delivery count. -/
theorem calcEfficiencyAt_fixed (d : AppData) (itemName : String)
    (reward cC uC uS lvl : ℚ) (mode : String) (count : Nat)
    (hm : getMaterialCost d itemName lvl = some (Except.ok cC))
    (ht : getTotalCostIncludingStamina d itemName lvl = some (Except.ok uC))
    (hs : getStamina d itemName lvl = some uS)
    (hz : uC ≠ 0) (hmode : mode ≠ "default")
    (hlookup : deliveryMap.lookup mode = some count) :
    calcEfficiencyAt d lvl itemName reward mode =
      some (Except.ok (fixedSimResult mode count reward cC uC uS)) := by
  simp only [calcEfficiencyAt, hm, ht, hs]
  rw [if_neg hz]
  rw [if_neg hmode]
  rw [hlookup]
  rfl

/-- C7 (confirmed): in fixed-simulation mode the labels "1", "2", "3",
"5", "10" map exactly to the delivery counts 1, 2, 10, 20, 25 (in
particular "3" yields 10 deliveries); no efficiency-threshold check is
applied (the conclusion holds for every efficiency_limit in the
settings and the search loop is never consulted); and the result
reports recommend = true with totalItems the cumulative sum of
requiredUnits over 1..count and totalProfit = reward * count, as
spelled out by fixedSimResult. -/
theorem calcEfficiency_fixed_mode_map :
    ∀ (d : AppData) (itemName : String) (reward cC uC uS lvl : ℚ),
      getMaterialCost d itemName lvl = some (Except.ok cC) →
      getTotalCostIncludingStamina d itemName lvl = some (Except.ok uC) →
      getStamina d itemName lvl = some uS →
      uC ≠ 0 →
      calcEfficiencyAt d lvl itemName reward "1" =
        some (Except.ok (fixedSimResult "1" 1 reward cC uC uS)) ∧
      calcEfficiencyAt d lvl itemName reward "2" =
        some (Except.ok (fixedSimResult "2" 2 reward cC uC uS)) ∧
      calcEfficiencyAt d lvl itemName reward "3" =
        some (Except.ok (fixedSimResult "3" 10 reward cC uC uS)) ∧
      calcEfficiencyAt d lvl itemName reward "5" =
        some (Except.ok (fixedSimResult "5" 20 reward cC uC uS)) ∧
      calcEfficiencyAt d lvl itemName reward "10" =
        some (Except.ok (fixedSimResult "10" 25 reward cC uC uS)) := by
  intro d itemName reward cC uC uS lvl hm ht hs hz
  refine ⟨?_, ?_, ?_, ?_, ?_⟩ <;>
    exact calcEfficiencyAt_fixed d itemName reward cC uC uS lvl _ _ hm ht hs hz
      (by decide) (by decide)

/-- C7 witness: mode "3" on the unit demo yields exactly 10 deliveries
and recommend = true. -/
theorem calcEfficiency_fixed_mode_map_witness :
    calcEfficiencyAt demoUnit 0 "A" 1 "3" =
      some (Except.ok (fixedSimResult "3" 10 1 1 1 0)) := by
  have hm : getMaterialCost demoUnit "A" 0 = some (Except.ok 1) := by
    simp [getMaterialCost, materialCostGo, demoUnit, findRecipe, costIngredients,
      reductionFactor, jsRound_one, one_price_pos, List.lookup]
  have ht : getTotalCostIncludingStamina demoUnit "A" 0 = some (Except.ok 1) := by
    simp [getTotalCostIncludingStamina, totalCostGo, getStamina, staminaGo, demoUnit,
      findRecipe, costIngredients, staminaIngredients, reductionFactor, jsRound_one,
      one_price_pos, List.lookup]
  have hs : getStamina demoUnit "A" 0 = some 0 := by
    simp [getStamina, staminaGo, demoUnit, findRecipe, staminaIngredients,
      reductionFactor, jsRound_one, List.lookup]
  exact (calcEfficiency_fixed_mode_map demoUnit "A" 1 1 1 0 0 hm ht hs
    (by norm_num)).2.2.1

/-- Rounding fact for the conservation demo: at level 10 the factor is
1/2, so a raw count of 2 rounds to 1. -/
theorem jsRound_half_double : jsRound (2 * (1 - 10 * (5 / 100))) = 1 := by
  norm_num [jsRound, Int.floor_eq_iff]

/-- C10 (confirmed): when the dataset's settings omit
conservation_level, calcEfficiency evaluates at conservation level 10
(calcEfficiencyAt d 10), not at level 0 — on the demo dataset the two
levels produce different results — and when conservation_level is set
to a value, that value is used unchanged. -/
theorem conservation_level_default_ten :
    (∀ (d : AppData) (itemName : String) (reward : ℚ) (mode : String),
      d.settings.conservation_level = none →
      calcEfficiency d itemName reward mode = calcEfficiencyAt d 10 itemName reward mode) ∧
    (∀ (d : AppData) (itemName : String) (reward : ℚ) (mode : String) (lv : ℚ),
      d.settings.conservation_level = some lv →
      calcEfficiency d itemName reward mode = calcEfficiencyAt d lv itemName reward mode) ∧
    calcEfficiency demoNoLevel "A" 1 "1" ≠ calcEfficiencyAt demoNoLevel 0 "A" 1 "1" := by
  have hm10 : getMaterialCost demoNoLevel "A" 10 = some (Except.ok 1) := by
    simp [getMaterialCost, materialCostGo, demoNoLevel, findRecipe, costIngredients,
      reductionFactor, jsRound_half_double, one_price_pos, List.lookup]
  have hs10 : getStamina demoNoLevel "A" 10 = some 0 := by
    simp [getStamina, staminaGo, demoNoLevel, findRecipe, staminaIngredients,
      reductionFactor, jsRound_half_double, List.lookup]
  have ht10 : getTotalCostIncludingStamina demoNoLevel "A" 10 = some (Except.ok 1) := by
    simp [getTotalCostIncludingStamina, totalCostGo, getStamina, staminaGo, demoNoLevel,
      findRecipe, costIngredients, staminaIngredients, reductionFactor,
      jsRound_half_double, one_price_pos, List.lookup]
  have hm0 : getMaterialCost demoNoLevel "A" 0 = some (Except.ok 2) := by
    simp [getMaterialCost, materialCostGo, demoNoLevel, findRecipe, costIngredients,
      reductionFactor, jsRound_two, one_price_pos, List.lookup]
  have hs0 : getStamina demoNoLevel "A" 0 = some 0 := by
    simp [getStamina, staminaGo, demoNoLevel, findRecipe, staminaIngredients,
      reductionFactor, jsRound_two, List.lookup]
  have ht0 : getTotalCostIncludingStamina demoNoLevel "A" 0 = some (Except.ok 2) := by
    simp [getTotalCostIncludingStamina, totalCostGo, getStamina, staminaGo, demoNoLevel,
      findRecipe, costIngredients, staminaIngredients, reductionFactor, jsRound_two,
      one_price_pos, List.lookup]
  have h10 := calcEfficiencyAt_fixed demoNoLevel "A" 1 1 1 0 10 "1" 1 hm10 ht10 hs10
    (by norm_num) (by decide) (by decide)
  have h0 := calcEfficiencyAt_fixed demoNoLevel "A" 1 2 2 0 0 "1" 1 hm0 ht0 hs0
    (by norm_num) (by decide) (by decide)
  refine ⟨?_, ?_, ?_⟩
  · intro d itemName reward mode h
    simp [calcEfficiency, h]
  · intro d itemName reward mode lv h
    simp [calcEfficiency, h]
  · have hL : calcEfficiency demoNoLevel "A" 1 "1" =
        calcEfficiencyAt demoNoLevel 10 "A" 1 "1" := rfl
    intro hcontra
    rw [hL, h10, h0] at hcontra
    have h1 := Except.ok.inj (Option.some.inj hcontra)
    have h2 : (fixedSimResult "1" 1 1 1 1 0).unitCost =
        (fixedSimResult "1" 1 1 2 2 0).unitCost := by rw [h1]
    simp only [fixedSimResult] at h2
    norm_num at h2

/-- C10 witness: the default branch on the demo whose settings omit
conservation_level. -/
theorem conservation_level_default_ten_witness :
    calcEfficiency demoNoLevel "A" 1 "1" = calcEfficiencyAt demoNoLevel 10 "A" 1 "1" :=
  conservation_level_default_ten.1 demoNoLevel "A" 1 "1" rfl
